import Mathlib

/-!
Verification of the SM-2 review-scheduling core of `plan-my-study`.

The development shallowly embeds the Python sources:
  * `backend/sm2.py`            — `SM2Algorithm.calculate_next_review`,
                                  `SM2Algorithm.initialize_topic`
  * `backend/crud/study_session.py` — `record_study_session`
  * `backend/crud/learning_history.py` — `get_due_topics`
  * `backend/crud/newsletter.py` — `add_curriculum_items`

Conventions of the embedding:
  * Python `float` arithmetic on the easiness factor is modelled over `ℚ`
    (all constants in the source are short decimals).
  * `datetime.date` values are modelled as `ℤ` day ordinals; `timedelta(days=n)`
    is addition of `n`.
  * The ambient `date.today()` used as a default becomes an explicit parameter.
  * Python's builtin `round` (round-half-to-even) is `pyRound`.
  * A Python expression that can raise (`5 - None`, `.user` on `None`) is
    embedded with `Except PyError`.
-/

namespace PlanMyStudy

/-- Python's builtin `round` to an integer: round half to even ("banker's
rounding"), as used in `new_interval = round(interval * new_ef)`. -/
def pyRound (x : ℚ) : ℤ :=
  let f : ℤ := ⌊x⌋
  if x - f < 1/2 then f
  else if 1/2 < x - f then f + 1
  else if f % 2 = 0 then f else f + 1

/-- Result quadruple of `SM2Algorithm.calculate_next_review` /
`SM2Algorithm.initialize_topic`: `(new_ef, new_interval, new_repetitions,
next_review_date)`. -/
structure SM2Result where
  ef : ℚ
  interval : ℤ
  repetitions : ℤ
  nextReview : ℤ
  deriving Repr, DecidableEq

/-- `SM2Algorithm.calculate_next_review` from `backend/sm2.py`, with the
`reference_date` default made an explicit parameter. -/
def calculate_next_review (easiness_factor : ℚ) (interval repetitions : ℤ)
    (quality : ℤ) (reference_date : ℤ) : SM2Result :=
  -- new_ef = easiness_factor + (0.1 - (5 - quality) * (0.08 + (5 - quality) * 0.02))
  let new_ef0 : ℚ :=
    easiness_factor + (1/10 - ((5 - quality : ℤ) : ℚ) * (8/100 + ((5 - quality : ℤ) : ℚ) * (2/100)))
  -- if new_ef < 1.3: new_ef = 1.3
  let new_ef : ℚ := if new_ef0 < 13/10 then 13/10 else new_ef0
  if quality < 3 then
    -- new_repetitions = 0; new_interval = 1
    { ef := new_ef, interval := 1, repetitions := 0, nextReview := reference_date + 1 }
  else
    let new_repetitions := repetitions + 1
    let new_interval : ℤ :=
      if new_repetitions = 1 then 1
      else if new_repetitions = 2 then 6
      else pyRound ((interval : ℚ) * new_ef)
    { ef := new_ef, interval := new_interval, repetitions := new_repetitions,
      nextReview := reference_date + new_interval }

/-- `SM2Algorithm.initialize_topic` from `backend/sm2.py`. -/
def initialize_topic (reference_date : ℤ) : SM2Result :=
  { ef := 5/2, interval := 1, repetitions := 0, nextReview := reference_date + 1 }

/-- Errors the embedded Python code can raise. -/
inductive PyError where
  | typeError
  | attributeError
  deriving Repr, DecidableEq

/-- The call `SM2Algorithm.calculate_next_review(ef, i, r, quality, d)` as made
with a possibly-`None` quality: `record_study_session` passes its optional
`quality_rating` straight through, and `5 - None` in the EF update raises
`TypeError`. -/
def calculate_next_review_py (easiness_factor : ℚ) (interval repetitions : ℤ)
    (quality : Option ℤ) (reference_date : ℤ) : Except PyError SM2Result :=
  match quality with
  | none => .error .typeError
  | some q => .ok (calculate_next_review easiness_factor interval repetitions q reference_date)

/-- A row of the `learning_history` table (`backend/models/learning_history.py`):
the MemoryState of one (user, subject, topic) triple. -/
structure LearningHistory where
  id : ℤ
  user_id : ℤ
  subject : String
  topic : String
  easiness_factor : ℚ
  interval : ℤ
  repetitions : ℤ
  last_reviewed : Option ℤ
  next_review : ℤ
  deriving Repr, DecidableEq

/-- A row of the `study_sessions` table (`backend/models/study_session.py`). -/
structure StudySession where
  user_id : ℤ
  learning_history_id : ℤ
  session_date : ℤ
  session_type : String
  quality_rating : Option ℤ
  notes : Option String
  deriving Repr, DecidableEq

/-- A curriculum item as parsed from a newsletter
(`CurriculumItemSchema` in `backend/schemas.py`); only the fields the SM-2
core reads. -/
structure CurriculumItemSchema where
  subject : String
  topic : String
  start_date : ℤ
  end_date : Option ℤ
  deriving Repr, DecidableEq

/-- The relevant slice of the SQLAlchemy store: `learning_history` and
`study_sessions` rows, `newsletters` as (id, user_id) pairs, curriculum items
tagged with their newsletter id, and the autoincrement counter for new
`learning_history` primary keys. -/
structure Db where
  histories : List LearningHistory
  sessions : List StudySession
  newsletters : List (ℤ × ℤ)
  curriculum_items : List (ℤ × CurriculumItemSchema)
  next_id : ℤ
  deriving Repr, DecidableEq

/-- `record_study_session` from `backend/crud/study_session.py`.

The Python function stages the new `StudySession`, looks the
`LearningHistory` row up by id, and — only when one is found — recomputes
its SM-2 fields via `calculate_next_review(lh.ef, lh.interval,
lh.repetitions, quality_rating, reference_date=session_date)` before the
single `db.commit()`.  When the lookup finds nothing the update is skipped
silently and the session is still committed.  When the lookup succeeds and
`quality_rating` is `None`, the recompute raises `TypeError`
(`5 - None`) before the commit, so nothing is persisted: that path is the
`.error` case. -/
def record_study_session (db : Db) (user_id learning_history_id : ℤ)
    (session_date : ℤ) (session_type : String) (quality_rating : Option ℤ)
    (notes : Option String) : Except PyError (Db × StudySession) :=
  let session : StudySession :=
    { user_id := user_id, learning_history_id := learning_history_id,
      session_date := session_date, session_type := session_type,
      quality_rating := quality_rating, notes := notes }
  match db.histories.find? (fun lh => lh.id == learning_history_id) with
  | some lh =>
      match calculate_next_review_py lh.easiness_factor lh.interval lh.repetitions
          quality_rating session_date with
      | .error e => .error e
      | .ok r =>
          let histories := db.histories.map (fun h =>
            if h.id == learning_history_id then
              { h with easiness_factor := r.ef, interval := r.interval,
                       repetitions := r.repetitions,
                       last_reviewed := some session_date,
                       next_review := r.nextReview }
            else h)
          .ok ({ db with histories := histories,
                         sessions := db.sessions ++ [session] }, session)
  | none =>
      .ok ({ db with sessions := db.sessions ++ [session] }, session)

/-- `get_due_topics` from `backend/crud/learning_history.py`, with the ambient
`date.today()` made the explicit parameter `today`. -/
def get_due_topics (db : Db) (user_id : ℤ) (today : ℤ) : List LearningHistory :=
  db.histories.filter (fun lh => lh.user_id == user_id && decide (lh.next_review ≤ today))

/-- The body of the `for item in items` loop of `add_curriculum_items`
(`backend/crud/newsletter.py`): stage the `CurriculumItem` row, resolve the
newsletter's user (`.user` on a missing newsletter raises
`AttributeError`), and when no `LearningHistory` row exists for the
(user, subject, topic) triple, create one initialized by
`SM2Algorithm.initialize_topic(reference_date=item.start_date)`. -/
def add_curriculum_item_step (db : Db) (newsletter_id : ℤ)
    (item : CurriculumItemSchema) : Except PyError Db :=
  let db := { db with curriculum_items := db.curriculum_items ++ [(newsletter_id, item)] }
  match db.newsletters.find? (fun n => n.1 == newsletter_id) with
  | none => .error .attributeError
  | some n =>
      match db.histories.find? (fun lh =>
          lh.user_id == n.2 && lh.subject == item.subject && lh.topic == item.topic) with
      | some _ => .ok db
      | none =>
          let r := initialize_topic item.start_date
          .ok { db with
                histories := db.histories ++
                  [{ id := db.next_id, user_id := n.2, subject := item.subject,
                     topic := item.topic, easiness_factor := r.ef,
                     interval := r.interval, repetitions := r.repetitions,
                     last_reviewed := none, next_review := r.nextReview }],
                next_id := db.next_id + 1 }

/-- `add_curriculum_items` from `backend/crud/newsletter.py`: the loop over
the parsed items (the trailing `db.commit()` persists the accumulated
state). -/
def add_curriculum_items (db : Db) (newsletter_id : ℤ)
    (items : List CurriculumItemSchema) : Except PyError Db :=
  items.foldlM (fun acc item => add_curriculum_item_step acc newsletter_id item) db

/-- The state after `n` reviews at quality 4, starting from the fresh SM-2
state `{EF = 2.5, interval = 1, repetitions = 0}` (reference date fixed at
day 0; it does not feed back into the state). -/
def sm2IterateQ4 : ℕ → SM2Result
  | 0 => { ef := 5/2, interval := 1, repetitions := 0, nextReview := 0 }
  | n + 1 =>
      let s := sm2IterateQ4 n
      calculate_next_review s.ef s.interval s.repetitions 4 0

/-- A store with no rows at all. -/
def dbEmpty : Db :=
  { histories := [], sessions := [], newsletters := [], curriculum_items := [], next_id := 1 }

/-- A single `LearningHistory` row in its freshly initialized state. -/
def lhFractions : LearningHistory :=
  { id := 1, user_id := 1, subject := "math", topic := "fractions",
    easiness_factor := 5/2, interval := 1, repetitions := 0,
    last_reviewed := none, next_review := 1 }

/-- A store holding exactly `lhFractions` and one newsletter for user 1. -/
def dbOne : Db :=
  { histories := [lhFractions], sessions := [], newsletters := [(7, 1)],
    curriculum_items := [], next_id := 2 }

/-! ### Helper lemmas -/

/-- `pyRound` never rounds down by more than one half. -/
theorem pyRound_sub_half_le (x : ℚ) : x - 1/2 ≤ (pyRound x : ℚ) := by
  have h1 : (⌊x⌋ : ℚ) ≤ x := Int.floor_le x
  have h2 : x < ⌊x⌋ + 1 := Int.lt_floor_add_one x
  simp only [pyRound]
  split_ifs <;> push_cast <;> linarith

/-- The in-place clamp `if new_ef < 1.3 then 1.3 else new_ef` of the source is
`max 1.3 new_ef`. -/
theorem clamp_eq_max (x : ℚ) : (if x < 13/10 then (13/10 : ℚ) else x) = max (13/10) x := by
  rcases lt_or_le x (13/10) with h | h
  · simp [h, max_eq_left h.le]
  · simp [not_lt.mpr h, max_eq_right h]

/-- The clamp keeps the easiness factor at or above 1.3, whatever the quality. -/
theorem calculate_next_review_ef_ge (ef : ℚ) (i r q d : ℤ) :
    13/10 ≤ (calculate_next_review ef i r q d).ef := by
  simp only [calculate_next_review]
  split_ifs with h1 h2 h2 <;> simp only <;> linarith [le_refl (13/10 : ℚ)]

/-- On the success branch past the second rung, the new interval is the
rounded product of old interval and new EF. -/
theorem calculate_next_review_interval_round (ef : ℚ) (i r q d : ℤ)
    (hq : 3 ≤ q) (hr : 2 ≤ r) :
    (calculate_next_review ef i r q d).interval =
      pyRound ((i : ℚ) * (calculate_next_review ef i r q d).ef) := by
  have h3 : ¬ q < 3 := not_lt.mpr hq
  have h1 : ¬ r + 1 = 1 := by omega
  have h2 : ¬ r + 1 = 2 := by omega
  simp [calculate_next_review, h3, h1, h2]

/-- Rounding `i * e` with `e ≥ 1.3` never drops below `i`. -/
theorem le_pyRound_mul (i : ℤ) (e : ℚ) (hi : 1 ≤ i) (he : 13/10 ≤ e) :
    i ≤ pyRound ((i : ℚ) * e) := by
  have h0 : (1 : ℚ) ≤ (i : ℚ) := by exact_mod_cast hi
  have h1 : (i : ℚ) * (13/10) ≤ (i : ℚ) * e :=
    mul_le_mul_of_nonneg_left he (by linarith)
  have h2 : (i : ℚ) * e - 1/2 ≤ (pyRound ((i : ℚ) * e) : ℚ) := pyRound_sub_half_le _
  have h3 : ((i - 1 : ℤ) : ℚ) < (pyRound ((i : ℚ) * e) : ℚ) := by
    push_cast
    linarith
  have h4 : i - 1 < pyRound ((i : ℚ) * e) := by exact_mod_cast h3
  omega

/-! ### Claims about the SM-2 engine -/

/-- C1: for every state with `easinessFactor ≥ 1.3`, `interval ≥ 1`,
`repetitions ≥ 0`, every integer quality in `[0,5]` and every reference
date, `calculate_next_review` returns exactly:
`newEF = max(1.3, EF + (0.1 - (5-q)*(0.08 + (5-q)*0.02)))`; for `q < 3`
repetitions reset to 0 and interval 1; otherwise repetitions increment and
the interval is 1, 6 or `round(interval * newEF)` by rung; and
`nextReview = referenceDate + newInterval` days. -/
theorem calculate_next_review_spec (ef : ℚ) (i r q d : ℤ)
    (hef : 13/10 ≤ ef) (hi : 1 ≤ i) (hr : 0 ≤ r) (hq0 : 0 ≤ q) (hq5 : q ≤ 5) :
    (calculate_next_review ef i r q d).ef
        = max (13/10)
            (ef + (1/10 - ((5 - q : ℤ) : ℚ) * (8/100 + ((5 - q : ℤ) : ℚ) * (2/100)))) ∧
    (q < 3 → (calculate_next_review ef i r q d).repetitions = 0 ∧
             (calculate_next_review ef i r q d).interval = 1) ∧
    (3 ≤ q → (calculate_next_review ef i r q d).repetitions = r + 1 ∧
             (calculate_next_review ef i r q d).interval =
               (if r + 1 = 1 then 1 else if r + 1 = 2 then 6
                else pyRound ((i : ℚ) * (calculate_next_review ef i r q d).ef))) ∧
    (calculate_next_review ef i r q d).nextReview
        = d + (calculate_next_review ef i r q d).interval := by
  refine ⟨?_, fun hq => by simp [calculate_next_review, hq], fun hq => ?_, ?_⟩
  · simp only [calculate_next_review]
    rw [clamp_eq_max]
    split <;> rfl
  · have h3 : ¬ q < 3 := not_lt.mpr hq
    exact ⟨by simp [calculate_next_review, h3], by simp [calculate_next_review, h3]⟩
  · simp only [calculate_next_review]
    split_ifs <;> rfl

/-- Witness for C1 at the lapse input `EF = 2.5, i = 1, r = 0, q = 2`. -/
theorem calculate_next_review_spec_witness :
    (calculate_next_review (5/2) 1 0 2 0).repetitions = 0 ∧
    (calculate_next_review (5/2) 1 0 2 0).interval = 1 :=
  (calculate_next_review_spec (5/2) 1 0 2 0 (by norm_num) (by norm_num)
    (by norm_num) (by norm_num) (by norm_num)).2.1 (by norm_num)

/-- C3: every recompute on a state with `EF ≥ 1.3` and quality in `[0,5]`
keeps `EF ≥ 1.3`, and `initialize_topic` starts at `EF = 2.5 ≥ 1.3`. -/
theorem ef_floor_invariant (ef : ℚ) (i r q d : ℤ)
    (hef : 13/10 ≤ ef) (hq0 : 0 ≤ q) (hq5 : q ≤ 5) :
    13/10 ≤ (calculate_next_review ef i r q d).ef ∧
    (initialize_topic d).ef = 5/2 ∧ 13/10 ≤ (initialize_topic d).ef :=
  ⟨calculate_next_review_ef_ge ef i r q d, by norm_num [initialize_topic],
    by norm_num [initialize_topic]⟩

/-- Witness for C3 at the worst quality `q = 0` on a minimal-EF state. -/
theorem ef_floor_invariant_witness :
    13/10 ≤ (calculate_next_review (13/10) 1 0 0 0).ef ∧
    (initialize_topic 0).ef = 5/2 ∧ 13/10 ≤ (initialize_topic 0).ef :=
  ef_floor_invariant (13/10) 1 0 0 0 (by norm_num) (by norm_num) (by norm_num)

/-- C9: for every integer quality, in range or not, `calculate_next_review`
succeeds (no exception: the `Except`-typed call with a present quality is
`.ok`) and the returned EF still satisfies the 1.3 floor — the clamp sits
before any branch on quality. -/
theorem recompute_total_and_clamped (ef : ℚ) (i r q d : ℤ)
    (hef : 13/10 ≤ ef) (hi : 1 ≤ i) (hr : 0 ≤ r) :
    calculate_next_review_py ef i r (some q) d = .ok (calculate_next_review ef i r q d) ∧
    13/10 ≤ (calculate_next_review ef i r q d).ef :=
  ⟨rfl, calculate_next_review_ef_ge ef i r q d⟩

/-- Witness for C9 at the out-of-range quality `q = 100`. -/
theorem recompute_total_and_clamped_witness :
    calculate_next_review_py (5/2) 1 0 (some 100) 0 = .ok (calculate_next_review (5/2) 1 0 100 0) ∧
    13/10 ≤ (calculate_next_review (5/2) 1 0 100 0).ef :=
  recompute_total_and_clamped (5/2) 1 0 100 0 (by norm_num) (by norm_num) (by norm_num)

/-- C10: with `repetitions ≥ 2` and a passing quality in `[3,5]`, the new
interval is `round(interval * newEF)` and never shrinks below the old
interval. -/
theorem interval_never_shrinks (ef : ℚ) (i r q d : ℤ)
    (hef : 13/10 ≤ ef) (hi : 1 ≤ i) (hr : 2 ≤ r) (hq3 : 3 ≤ q) (hq5 : q ≤ 5) :
    (calculate_next_review ef i r q d).interval =
      pyRound ((i : ℚ) * (calculate_next_review ef i r q d).ef) ∧
    i ≤ (calculate_next_review ef i r q d).interval := by
  have hround := calculate_next_review_interval_round ef i r q d hq3 hr
  refine ⟨hround, ?_⟩
  rw [hround]
  exact le_pyRound_mul i _ hi (calculate_next_review_ef_ge ef i r q d)

/-- Witness for C10 at `EF = 1.3, i = 1, r = 2, q = 3`. -/
theorem interval_never_shrinks_witness :
    (calculate_next_review (13/10) 1 2 3 0).interval =
      pyRound ((1 : ℚ) * (calculate_next_review (13/10) 1 2 3 0).ef) ∧
    (1 : ℤ) ≤ (calculate_next_review (13/10) 1 2 3 0).interval := by
  have h := interval_never_shrinks (13/10) 1 2 3 0 (by norm_num) (by norm_num)
    (by norm_num) (by norm_num) (by norm_num)
  simpa using h

/-! ### The quality-4 ladder (C2) -/

/-- A quality-4 review leaves an EF of 2.5 unchanged (`delta = 0.1 - 1*(0.08
+ 1*0.02) = 0`). -/
theorem calculate_next_review_ef_q4 (i r d : ℤ) :
    (calculate_next_review (5/2) i r 4 d).ef = 5/2 := by
  norm_num [calculate_next_review]

/-- C2 counterexample: the fifth interval of the quality-4 ladder is 95, not
94 — the code rounds each interval to an integer before feeding it back, so
the fifth step is `round(38 * 2.5) = 95`, not `round(37.5 * 2.5) = 94`. -/
theorem sm2_ladder_fifth_interval :
    (sm2IterateQ4 5).interval = 95 ∧ (sm2IterateQ4 5).interval ≠ 94 := by
  constructor <;> norm_num [sm2IterateQ4, calculate_next_review, pyRound]

/-- C2 amended: from the fresh state, quality-4 reviews keep EF at 2.5 on
every step and produce the interval sequence 1, 6, 15, 38, 95. -/
theorem sm2_ladder_q4 :
    (∀ n, (sm2IterateQ4 n).ef = 5/2) ∧
    (sm2IterateQ4 1).interval = 1 ∧ (sm2IterateQ4 2).interval = 6 ∧
    (sm2IterateQ4 3).interval = 15 ∧ (sm2IterateQ4 4).interval = 38 ∧
    (sm2IterateQ4 5).interval = 95 := by
  have hef : ∀ n, (sm2IterateQ4 n).ef = 5/2 := by
    intro n
    induction n with
    | zero => rfl
    | succ n ih =>
        simp only [sm2IterateQ4]
        rw [ih]
        exact calculate_next_review_ef_q4 _ _ _
  refine ⟨hef, ?_, ?_, ?_, ?_, ?_⟩ <;>
    norm_num [sm2IterateQ4, calculate_next_review, pyRound]

/-! ### Claims about the session recorder (C4, C5, C6) -/

/-- The session staged by the C4 counterexample call. -/
def sessionGhost : StudySession :=
  { user_id := 1, learning_history_id := 1, session_date := 0,
    session_type := "review", quality_rating := some 4, notes := none }

/-- C4 counterexample: recording against a store with no matching
MemoryState does not fail with `NotFoundError` — the call succeeds and the
orphan session IS committed (`if lh:` silently skips the update only). -/
theorem record_missing_state_cex :
    record_study_session dbEmpty 1 1 0 "review" (some 4) none =
      .ok ({ dbEmpty with sessions := [sessionGhost] }, sessionGhost) := by
  rfl

/-- C4 amended: when `learning_history_id` matches no `LearningHistory` row,
`record_study_session` succeeds, appends the session record anyway, and
leaves every `LearningHistory` row untouched. -/
theorem record_missing_state (db : Db) (uid lid d : ℤ) (st : String)
    (q : Option ℤ) (notes : Option String)
    (h : db.histories.find? (fun lh => lh.id == lid) = none) :
    record_study_session db uid lid d st q notes =
      .ok ({ db with sessions := db.sessions ++
               [{ user_id := uid, learning_history_id := lid, session_date := d,
                  session_type := st, quality_rating := q, notes := notes }] },
           { user_id := uid, learning_history_id := lid, session_date := d,
             session_type := st, quality_rating := q, notes := notes }) := by
  simp only [record_study_session, h]

/-- Witness for the amended C4 on a concrete empty store. -/
theorem record_missing_state_witness :
    record_study_session dbEmpty 2 5 3 "study" none none =
      .ok ({ dbEmpty with sessions :=
               [{ user_id := 2, learning_history_id := 5, session_date := 3,
                  session_type := "study", quality_rating := none, notes := none }] },
           { user_id := 2, learning_history_id := 5, session_date := 3,
             session_type := "study", quality_rating := none, notes := none }) :=
  record_missing_state dbEmpty 2 5 3 "study" none none rfl

/-- C5 counterexample: a "review" session with quality 7 (outside [0,5]) is
not rejected with `ValidationError` — the call proceeds and succeeds — and
neither is a session type outside {"study","review"}. -/
theorem record_no_validation_cex :
    (record_study_session dbOne 1 1 10 "review" (some 7) none).isOk = true ∧
    (record_study_session dbOne 1 1 10 "quiz" (some 4) none).isOk = true := by
  constructor <;>
    simp [record_study_session, dbOne, lhFractions, calculate_next_review_py,
      Except.isOk, Except.toBool]

/-- C5 amended: `record_study_session` validates nothing — with any session
type and any present integer quality (in range or not) the call proceeds and
succeeds; only an absent quality with an existing MemoryState makes it fail,
with a `TypeError` from the SM-2 arithmetic (not a `ValidationError`), in
which case nothing is committed. -/
theorem record_no_validation (db : Db) (uid lid d : ℤ) (st : String)
    (q : ℤ) (notes : Option String) (lh : LearningHistory)
    (h : db.histories.find? (fun x => x.id == lid) = some lh) :
    (record_study_session db uid lid d st (some q) notes).isOk = true ∧
    record_study_session db uid lid d st none notes = .error .typeError := by
  constructor <;>
    simp [record_study_session, h, calculate_next_review_py, Except.isOk, Except.toBool]

/-- Witness for the amended C5: session type "cram", quality -3. -/
theorem record_no_validation_witness :
    (record_study_session dbOne 1 1 10 "cram" (some (-3)) none).isOk = true ∧
    record_study_session dbOne 1 1 10 "cram" none none = .error .typeError :=
  record_no_validation dbOne 1 1 10 "cram" (-3) none lhFractions rfl

/-- C6: a "study" session with no quality rating does NOT recompute with the
default quality 4 — `record_study_session` passes its `quality_rating`
(`None`) straight into `calculate_next_review`, overriding the `quality=4`
default, and the EF update raises `TypeError` before anything is
committed. -/
theorem record_study_default_quality_bug :
    record_study_session dbOne 1 1 10 "study" none none = .error .typeError := by
  rfl

/-! ### Claims about the topic initializer (C7) and the due-topic query (C8) -/

/-- C7: for a curriculum item whose newsletter resolves to user `p.2`: when
no `LearningHistory` row exists for the (user, subject, topic) triple,
exactly one is appended, initialized to EF 2.5, interval 1, repetitions 0
and `next_review = start_date + 1` (the item's curriculum start date, not
"today"); when one exists, the histories are left exactly as they were. -/
theorem add_curriculum_item_spec (db : Db) (nid : ℤ) (item : CurriculumItemSchema)
    (p : ℤ × ℤ) (hn : db.newsletters.find? (fun n => n.1 == nid) = some p) :
    (db.histories.find? (fun lh =>
        lh.user_id == p.2 && lh.subject == item.subject && lh.topic == item.topic) = none →
      add_curriculum_item_step db nid item = .ok
        { db with
          curriculum_items := db.curriculum_items ++ [(nid, item)],
          histories := db.histories ++
            [{ id := db.next_id, user_id := p.2, subject := item.subject,
               topic := item.topic, easiness_factor := 5/2, interval := 1,
               repetitions := 0, last_reviewed := none,
               next_review := item.start_date + 1 }],
          next_id := db.next_id + 1 }) ∧
    (∀ lh0, db.histories.find? (fun lh =>
        lh.user_id == p.2 && lh.subject == item.subject && lh.topic == item.topic) = some lh0 →
      add_curriculum_item_step db nid item = .ok
        { db with curriculum_items := db.curriculum_items ++ [(nid, item)] }) := by
  constructor
  · intro h
    simp only [add_curriculum_item_step, initialize_topic, hn, h]
  · intro lh0 h
    simp only [add_curriculum_item_step, hn, h]

/-- A curriculum item for a topic `dbOne` does not track yet. -/
def itemPlants : CurriculumItemSchema :=
  { subject := "science", topic := "plants", start_date := 100, end_date := none }

/-- Witness for C7: processing `itemPlants` against `dbOne` creates exactly
one fresh MemoryState due on day 101. -/
theorem add_curriculum_item_spec_witness :
    add_curriculum_item_step dbOne 7 itemPlants = .ok
      { dbOne with
        curriculum_items := [(7, itemPlants)],
        histories := [lhFractions,
          { id := 2, user_id := 1, subject := "science", topic := "plants",
            easiness_factor := 5/2, interval := 1, repetitions := 0,
            last_reviewed := none, next_review := 101 }],
        next_id := 3 } := by
  have h := (add_curriculum_item_spec dbOne 7 itemPlants (7, 1) rfl).1 rfl
  simpa [dbOne, itemPlants, lhFractions] using h

/-- C8: `get_due_topics` returns exactly the user's `LearningHistory` rows
with `next_review ≤ today` (a pure filter, mutating nothing), and a user
with no topics gets the empty list, not an error. -/
theorem get_due_topics_spec (db : Db) (uid today : ℤ) :
    (∀ lh, lh ∈ get_due_topics db uid today ↔
      lh ∈ db.histories ∧ lh.user_id = uid ∧ lh.next_review ≤ today) ∧
    ((∀ lh ∈ db.histories, lh.user_id ≠ uid) → get_due_topics db uid today = []) := by
  have hmem : ∀ lh, lh ∈ get_due_topics db uid today ↔
      lh ∈ db.histories ∧ lh.user_id = uid ∧ lh.next_review ≤ today := by
    intro lh
    simp [get_due_topics, List.mem_filter, and_assoc]
  refine ⟨hmem, fun h => ?_⟩
  apply List.eq_nil_iff_forall_not_mem.mpr
  intro lh hlh
  have hm := (hmem lh).mp hlh
  exact (h lh hm.1) hm.2.1

/-- Witness for C8: a user with no topics in `dbOne` gets `[]`. -/
theorem get_due_topics_spec_witness : get_due_topics dbOne 99 0 = [] :=
  (get_due_topics_spec dbOne 99 0).2 (by simp [dbOne, lhFractions])

end PlanMyStudy
